import Mathlib

/-!
Shallow embedding of the escrow-bot core (`src/bot.py`) and proofs about the
specification claims.

Modelling conventions:
* Python dictionaries with a fixed set of possibly-absent keys become Lean
  structures with `Option` fields (`none` = the key is absent in the dict).
* The global `active_transactions` dictionary becomes an association list
  `Store` keyed by chat id, passed and returned explicitly; the global
  `monitored_transactions` dictionary becomes `Monitored`.
* External services (blockcypher lookups, NOWPayments calls, Telegram
  permission checks) are inputs to the embedded functions: each call's
  outcome is a parameter (`Except`/`Bool`), so the functions are total over
  all service behaviours.
* Telegram replies are abstracted to result constructors / event kinds; the
  rendered message text carries no program state.
* Python `float` arithmetic (used by the fee computation) is embedded as
  exact rationals rounded to IEEE-754 binary64 after every operation
  (round to nearest, ties to even): see `roundF64` below.
* Timestamps (`datetime.now()`, isoformat strings) are modelled as integer
  seconds.
-/

namespace Bot

/-- Model of Python `str.startswith`: the prefix's characters head the
string's characters. -/
def pyStartsWith (s p : String) : Bool :=
  p.data.isPrefixOf s.data

/-- Coin family returned by `detect_crypto_type` (`'btc'` / `'ltc'`). -/
inductive CoinType where
  | btc
  | ltc
deriving DecidableEq, Repr

/-- `detect_crypto_type` (bot.py:96-103): prefix classification of a ledger
address; raises `ValueError("Invalid cryptocurrency address")` otherwise. -/
def detect_crypto_type (address : String) : Except String CoinType :=
  if pyStartsWith address "1" || pyStartsWith address "3" || pyStartsWith address "bc1" then
    .ok .btc
  else if pyStartsWith address "L" || pyStartsWith address "M" || pyStartsWith address "ltc1" then
    .ok .ltc
  else
    .error "Invalid cryptocurrency address"

/-! ### IEEE-754 binary64 model for Python float arithmetic -/

/-- Round a rational to the nearest integer, ties to even (the IEEE default
rounding rule applied to the scaled significand). All branches compare
integers, so the definition evaluates inside the kernel. -/
def roundNE (q : ℚ) : ℤ :=
  let f : ℤ := q.num.fdiv (q.den : ℤ)
  let r2 : ℤ := 2 * (q.num - f * (q.den : ℤ))
  if r2 < (q.den : ℤ) then f
  else if (q.den : ℤ) < r2 then f + 1
  else if f % 2 = 0 then f else f + 1

/-- `2^e ≤ q`, decided with integer arithmetic (`q` positive). -/
def pow2LE (e : ℤ) (q : ℚ) : Bool :=
  if 0 ≤ e then decide ((q.den : ℤ) * 2 ^ e.toNat ≤ q.num)
  else decide ((q.den : ℤ) ≤ q.num * 2 ^ (-e).toNat)

/-- Largest exponent `e ∈ [-200, 200]` with `2^e ≤ q`, for positive `q` in
that range: the binade of `q` for the binary64 rounding model (all values
arising in the program are far inside this range). -/
def findExp (q : ℚ) : ℤ :=
  (List.range 401).foldl
    (fun acc i =>
      let e : ℤ := (i : ℤ) - 200
      if pow2LE e q then e else acc)
    (-200)

/-- Round a positive rational to the nearest IEEE-754 binary64 value
(round to nearest, ties to even): significand `m = roundNE (q / 2^(e-52))`,
value `m * 2^(e-52)`. Faithful for magnitudes within the normal range used
by the program. -/
def roundF64pos (q : ℚ) : ℚ :=
  let e := findExp q
  let k := e - 52
  let m : ℤ :=
    if 0 ≤ k then roundNE (mkRat q.num (q.den * 2 ^ k.toNat))
    else roundNE (mkRat (q.num * 2 ^ (-k).toNat) q.den)
  if 0 ≤ k then mkRat (m * 2 ^ k.toNat) 1
  else mkRat m (2 ^ (-k).toNat)

/-- Round a rational to the nearest IEEE-754 binary64 value. (The float
model is written with `mkRat` and integer arithmetic throughout so that
every value evaluates inside the kernel.) -/
def roundF64 (q : ℚ) : ℚ :=
  if q.num = 0 then mkRat 0 1
  else if 0 < q.num then roundF64pos q
  else (roundF64pos q.neg).neg

/-- Exact product `a * b` as a (normalised) fraction. -/
def ratMul (a b : ℚ) : ℚ := mkRat (a.num * b.num) (a.den * b.den)

/-- Exact quotient `a / b` as a (normalised) fraction, for `b ≠ 0`. -/
def ratDiv (a b : ℚ) : ℚ :=
  if 0 ≤ b.num then mkRat (a.num * (b.den : ℤ)) (a.den * b.num.toNat)
  else mkRat (-(a.num * (b.den : ℤ))) (a.den * (-b.num).toNat)

/-- Exact difference `a - b` as a (normalised) fraction. -/
def ratSub (a b : ℚ) : ℚ :=
  mkRat (a.num * (b.den : ℤ) - b.num * (a.den : ℤ)) (a.den * b.den)

/-- One Python float multiplication: exact product, then binary64 rounding. -/
def fmul (a b : ℚ) : ℚ := roundF64 (ratMul a b)

/-- One Python float division: exact quotient, then binary64 rounding. -/
def fdiv (a b : ℚ) : ℚ := roundF64 (ratDiv a b)

/-- One Python float subtraction: exact difference, then binary64 rounding. -/
def fsub (a b : ℚ) : ℚ := roundF64 (ratSub a b)

/-- bot.py:567: `escrow_fee = total_amount * (ESCROW_FEE_PERCENTAGE / 100)`,
evaluated in Python float (binary64) arithmetic. -/
def escrow_fee (total_amount feePct : ℚ) : ℚ :=
  fmul total_amount (fdiv feePct (mkRat 100 1))

/-- bot.py:568: `release_amount = total_amount - escrow_fee`, in Python
float (binary64) arithmetic. -/
def release_amount (total_amount feePct : ℚ) : ℚ :=
  fsub total_amount (escrow_fee total_amount feePct)

/-! ### Data model -/

/-- A buyer/seller record as written by the `/buyer` and `/seller` handlers
(bot.py:477-481, 521-525): a dict with keys `address`, `coin_type`,
`timestamp`. A `user_id` key is modelled as `Option` because the release
handler reads it (bot.py:556) although no writer in the file sets it. -/
structure Party where
  address : String
  coin_type : CoinType
  timestamp : Int
  user_id : Option Int := none
deriving DecidableEq, Repr

/-- An `active_transactions[chat_id]` dict; every key the file reads or
writes, each possibly absent. -/
structure Transaction where
  buyer : Option Party := none
  seller : Option Party := none
  payment_status : Option String := none
  amount : Option ℚ := none
  payment_id : Option String := none
  timestamp : Option Int := none
deriving DecidableEq, Repr

abbrev ChatId := Int

/-- The global `active_transactions` dict, as an association list keyed by
chat id. -/
abbrev Store := List (ChatId × Transaction)

/-- Dict read: `active_transactions[chat_id]` / `chat_id in active_transactions`. -/
def storeLookup (c : ChatId) : Store → Option Transaction
  | [] => none
  | (k, t) :: rest => if k = c then some t else storeLookup c rest

/-- Dict write: `active_transactions[chat_id] = t` (insert or overwrite). -/
def storeSet (c : ChatId) (t : Transaction) : Store → Store
  | [] => [(c, t)]
  | (k, u) :: rest => if k = c then (c, t) :: rest else (k, u) :: storeSet c t rest

/-- Dict delete: `del active_transactions[chat_id]`. -/
def storeErase (c : ChatId) : Store → Store
  | [] => []
  | (k, t) :: rest => if k = c then storeErase c rest else (k, t) :: storeErase c rest

/-- In-place update of the entry at a key, as in
`active_transactions[chat_id]['payment_status'] = 'confirmed'`. -/
def storeModify (c : ChatId) (f : Transaction → Transaction) : Store → Store
  | [] => []
  | (k, t) :: rest =>
    if k = c then (k, f t) :: storeModify c f rest
    else (k, t) :: storeModify c f rest

/-! ### Role handlers (`set_buyer`, bot.py:448-490; `set_seller`, 492-534)

The group-chat check is assumed (commands outside groups reply and return
without touching the store); the Telegram admin-permission probe and the
external `get_address_details` call are inputs. -/

/-- Outcome of a `/buyer` or `/seller` command (the reply sent). -/
inductive SetRoleResult where
  | blockedUser                 -- "You are blocked from using this bot."
  | noPerms                     -- "Bot needs admin privileges to function!"
  | noArgs                      -- "Please provide a cryptocurrency address!"
  | valueError (msg : String)   -- ValueError from detect_crypto_type, replied verbatim
  | invalidInfo                 -- falsy address_info: "Invalid cryptocurrency address!"
  | caughtError                 -- generic exception caught: "Error setting ... address."
  | roleSet (coin : CoinType) (address : String)
deriving DecidableEq, Repr

/-- `set_buyer` (bot.py:448-490). `addr_info` is the outcome of the external
`get_address_details` call: `.error` = it raised (caught by the generic
`except`), `.ok b` = it returned a value with truthiness `b`. -/
def set_buyer (blocked : List Int) (has_perms : Bool) (addr_info : Except Unit Bool)
    (now : Int) (store : Store) (chat_id : ChatId) (user_id : Int)
    (args : List String) : SetRoleResult × Store :=
  if user_id ∈ blocked then (.blockedUser, store)
  else if ¬ has_perms then (.noPerms, store)
  else
    match args with
    | [] => (.noArgs, store)
    | address :: _ =>
      match detect_crypto_type address with
      | .error m => (.valueError m, store)
      | .ok coin =>
        match addr_info with
        | .error _ => (.caughtError, store)
        | .ok false => (.invalidInfo, store)
        | .ok true =>
          let t := (storeLookup chat_id store).getD {}
          (.roleSet coin address,
            storeSet chat_id { t with buyer := some ⟨address, coin, now, none⟩ } store)

/-- `set_seller` (bot.py:492-534): identical to `set_buyer` except it writes
the `seller` key. -/
def set_seller (blocked : List Int) (has_perms : Bool) (addr_info : Except Unit Bool)
    (now : Int) (store : Store) (chat_id : ChatId) (user_id : Int)
    (args : List String) : SetRoleResult × Store :=
  if user_id ∈ blocked then (.blockedUser, store)
  else if ¬ has_perms then (.noPerms, store)
  else
    match args with
    | [] => (.noArgs, store)
    | address :: _ =>
      match detect_crypto_type address with
      | .error m => (.valueError m, store)
      | .ok coin =>
        match addr_info with
        | .error _ => (.caughtError, store)
        | .ok false => (.invalidInfo, store)
        | .ok true =>
          let t := (storeLookup chat_id store).getD {}
          (.roleSet coin address,
            storeSet chat_id { t with seller := some ⟨address, coin, now, none⟩ } store)

/-! ### `release` (bot.py:536-602) -/

/-- Outcome of a `/release` command. -/
inductive ReleaseResult where
  | notFound        -- "No active transaction found!"
  | rolesMissing    -- "Both buyer and seller must be set up first!"
  | keyError        -- uncaught KeyError from transaction['buyer'/'seller']['user_id']
  | notParty        -- "Only the buyer or seller can release funds!"
  | notConfirmed    -- "Payment must be confirmed before release!"
  | caughtError     -- exception inside the try block: "Error releasing funds."
  | released (payout fee : ℚ) (address : String) (payment_id : String)
deriving DecidableEq, Repr

/-- Body of `release` after the requester check has passed (bot.py:560-602):
the payment-status check, then the try block around the fee computation and
the NOWPayments payout call `gw` (`.ok` carries the returned payment id;
`.error` = the call raised). A missing `amount` key raises a KeyError inside
the try block, which the generic `except` catches. The session is deleted
only after the gateway call returns. -/
def releaseBody (feePct : ℚ) (gw : Except Unit String) (store : Store)
    (chat_id : ChatId) (user_id : Int) (t : Transaction) (buyer seller : Party) :
    ReleaseResult × Store :=
  if t.payment_status ≠ some "confirmed" then (.notConfirmed, store)
  else
    match t.amount with
    | none => (.caughtError, store)
    | some amt =>
      let fee := escrow_fee amt feePct
      let payout := release_amount amt feePct
      let addr := if some user_id = buyer.user_id then seller.address else buyer.address
      match gw with
      | .error _ => (.caughtError, store)
      | .ok pid => (.released payout fee addr pid, storeErase chat_id store)

/-- `release` (bot.py:536-602). The requester check (bot.py:556) evaluates
`transaction['buyer']['user_id']` first; a missing key is a KeyError raised
outside the try block (uncaught). Python's `and` short-circuits: when the
buyer's id matches, the seller's `user_id` is never read. -/
def release (feePct : ℚ) (gw : Except Unit String) (store : Store)
    (chat_id : ChatId) (user_id : Int) : ReleaseResult × Store :=
  match storeLookup chat_id store with
  | none => (.notFound, store)
  | some t =>
    match t.buyer, t.seller with
    | none, _ => (.rolesMissing, store)
    | some _, none => (.rolesMissing, store)
    | some buyer, some seller =>
      match buyer.user_id with
      | none => (.keyError, store)
      | some buid =>
        if buid = user_id then
          releaseBody feePct gw store chat_id user_id t buyer seller
        else
          match seller.user_id with
          | none => (.keyError, store)
          | some suid =>
            if suid = user_id then
              releaseBody feePct gw store chat_id user_id t buyer seller
            else (.notParty, store)

/-! ### `refund` (bot.py:669-715) -/

/-- Outcome of a `/refund` command. -/
inductive RefundResult where
  | notAdmin        -- "This command is only available to admins!"
  | noArgs          -- "Please provide a transaction ID to refund!"
  | notFound        -- "No active transaction found!"
  | noPayment       -- "No payment found for this transaction!"
  | caughtError     -- exception inside the try block: "Error processing refund."
  | refunded (refund_id : String)
deriving DecidableEq, Repr

/-- `refund` (bot.py:669-715). `admin` is the `is_admin` check; `gw` is the
outcome of `nowpayments.create_refund`. After the gateway call succeeds the
admin notification message reads `transaction['amount']`; a missing key is a
KeyError inside the try block (caught, session not deleted). The session is
deleted only on the fully successful path. -/
def refund (admin : Bool) (gw : Except Unit String) (store : Store)
    (chat_id : ChatId) (args : List String) : RefundResult × Store :=
  if ¬ admin then (.notAdmin, store)
  else
    match args with
    | [] => (.noArgs, store)
    | _tx_id :: _ =>
      match storeLookup chat_id store with
      | none => (.notFound, store)
      | some t =>
        match t.payment_id with
        | none => (.noPayment, store)
        | some _pid =>
          match gw with
          | .error _ => (.caughtError, store)
          | .ok rid =>
            match t.amount with
            | none => (.caughtError, store)
            | some _ => (.refunded rid, storeErase chat_id store)

/-! ### Transaction monitor (`monitor_transaction`, bot.py:171-221) -/

/-- Outcome of one poll of the ledger (the nested
`get_transaction_details` attempts, bot.py:179-189): `.found` = some lookup
returned a truthy dict, `.noInfo` = it returned a falsy value, `.failure` =
both the BTC and LTC lookups raised. -/
inductive PollOutcome where
  | found (confirmations : Nat) (total : Nat)
  | noInfo
  | failure
deriving DecidableEq, Repr

/-- `current_status` string: `"Confirmed"` iff `confirmations > 0`. -/
inductive MonStatus where
  | pending
  | confirmed
deriving DecidableEq, Repr

/-- The monitor loop's local variables `last_status` and `retry_count`. -/
structure MonState where
  last_status : Option MonStatus := none
  retry_count : Nat := 0
deriving DecidableEq, Repr

/-- Notifications the monitor emits. -/
inductive MonEvent where
  | statusMsg (status : MonStatus) (confirmations : Nat)  -- "Transaction Update" to the chat
  | readyMsg                                              -- "Payment confirmed! ... /release"
  | adminFailure                                          -- handle_api_error admin notification
deriving DecidableEq, Repr

/-- Result of one iteration of the monitor's `while True` loop: either it
sleeps `sleep` seconds and loops with updated state, or it breaks. -/
inductive StepOut where
  | next (store : Store) (st : MonState) (events : List MonEvent) (sleep : Nat)
  | stop (store : Store) (st : MonState) (events : List MonEvent)
deriving DecidableEq, Repr

def MONITORING_INTERVAL : Nat := 60

def max_retries : Nat := 3

/-- One iteration of `monitor_transaction`'s loop (bot.py:177-221).
On `.found`: compute the status; on a change send the status message; on a
change to Confirmed with the chat still in the store, set
`payment_status = 'confirmed'`, send the ready message and break (before
the `last_status`/`retry_count` updates); otherwise update them and sleep.
On `.noInfo`: fall through to the fixed sleep.
On `.failure`: increment `retry_count`; at `max_retries` notify the admin
group (`handle_api_error`) and break; otherwise sleep
`MONITORING_INTERVAL * retry_count`. -/
def monitorStep (chat_id : ChatId) (store : Store) (st : MonState) :
    PollOutcome → StepOut
  | .found confs _total =>
    let current : MonStatus := if confs > 0 then .confirmed else .pending
    if some current ≠ st.last_status then
      if current = .confirmed ∧ (storeLookup chat_id store).isSome = true then
        .stop (storeModify chat_id (fun t => { t with payment_status := some "confirmed" }) store)
          st [.statusMsg current confs, .readyMsg]
      else
        .next store ⟨some current, 0⟩ [.statusMsg current confs] MONITORING_INTERVAL
    else
      .next store ⟨some current, 0⟩ [] MONITORING_INTERVAL
  | .noInfo => .next store st [] MONITORING_INTERVAL
  | .failure =>
    let rc := st.retry_count + 1
    if max_retries ≤ rc then
      .stop store ⟨st.last_status, rc⟩ [.adminFailure]
    else
      .next store ⟨st.last_status, rc⟩ [] (MONITORING_INTERVAL * rc)

/-- Observable trace of a monitor processing a finite list of poll
outcomes: final store, emitted events, sleeps performed, the loop state
after each processed poll, and whether the loop has broken. -/
structure MonRun where
  store : Store
  events : List MonEvent
  sleeps : List Nat
  states : List MonState
  terminated : Bool
deriving DecidableEq, Repr

/-- Run `monitor_transaction`'s loop over a list of poll outcomes (the
loop itself never ends on its own; a run that consumes the whole list
without breaking is still live: `terminated = false`). -/
def monitorRun (chat_id : ChatId) (store : Store) (st : MonState) :
    List PollOutcome → MonRun
  | [] => ⟨store, [], [], [], false⟩
  | p :: ps =>
    match monitorStep chat_id store st p with
    | .stop store' st' evs => ⟨store', evs, [], [st'], true⟩
    | .next store' st' evs slp =>
      let r := monitorRun chat_id store' st' ps
      ⟨r.store, evs ++ r.events, slp :: r.sleeps, st' :: r.states, r.terminated⟩

/-- The loop's initial state (bot.py:173-174). -/
def monitorInit : MonState := ⟨none, 0⟩

/-- Count of admin failure notifications in a trace. -/
def countAdmin (evs : List MonEvent) : Nat :=
  evs.countP (fun e => e == .adminFailure)

/-! ### `start_monitoring` (bot.py:223-233) -/

/-- The global `monitored_transactions` dict: chat id → set of watched
transaction ids (the set is modelled as a duplicate-free list). -/
abbrev Monitored := List (ChatId × List String)

def monLookup (c : ChatId) : Monitored → Option (List String)
  | [] => none
  | (k, s) :: rest => if k = c then some s else monLookup c rest

def monSet (c : ChatId) (txs : List String) : Monitored → Monitored
  | [] => [(c, txs)]
  | (k, s) :: rest => if k = c then (c, txs) :: rest else (k, s) :: monSet c txs rest

/-- `start_monitoring` (bot.py:223-233): ensure the chat's watched set
exists, and only when the transaction id is not yet in it, register it and
spawn a watcher thread. Returns the updated registry and whether a new
watcher thread was spawned. -/
def start_monitoring (m : Monitored) (chat_id : ChatId) (tx_id : String) :
    Monitored × Bool :=
  let m1 := if (monLookup chat_id m).isSome then m else monSet chat_id [] m
  let txs := (monLookup chat_id m1).getD []
  if tx_id ∈ txs then (m1, false)
  else (monSet chat_id (tx_id :: txs) m1, true)

/-! ### `cleanup_old_transactions` (bot.py:109-136) -/

def TRANSACTION_TIMEOUT : Int := 86400

/-- A transaction is collected by the reaper iff it has a top-level
`'timestamp'` key and it is older than the timeout (bot.py:117-119). -/
def isExpired (now : Int) (t : Transaction) : Bool :=
  match t.timestamp with
  | some ts => TRANSACTION_TIMEOUT < now - ts
  | none => false

/-- `cleanup_old_transactions` (bot.py:109-136): collect the chats whose
transaction is expired, delete each from the store, and send one expiry
message per deleted chat (returned as the list of notified chat ids). -/
def cleanup_old_transactions (now : Int) (store : Store) : Store × List ChatId :=
  (store.filter (fun e => ! isExpired now e.2),
   (store.filter (fun e => isExpired now e.2)).map (fun e => e.1))

end Bot

open Bot

set_option maxRecDepth 100000

/-! ### Helper lemmas -/

theorem storeLookup_set (c : ChatId) (t : Transaction) (s : Store) :
    storeLookup c (storeSet c t s) = some t := by
  induction s with
  | nil => simp [storeSet, storeLookup]
  | cons e rest ih =>
    obtain ⟨k, u⟩ := e
    by_cases h : k = c <;> simp [storeSet, storeLookup, h, ih]

theorem storeLookup_erase (c : ChatId) (s : Store) :
    storeLookup c (storeErase c s) = none := by
  induction s with
  | nil => rfl
  | cons e rest ih =>
    obtain ⟨k, t⟩ := e
    by_cases h : k = c <;> simp [storeErase, storeLookup, h, ih]

theorem monLookup_set (c : ChatId) (txs : List String) (m : Monitored) :
    monLookup c (monSet c txs m) = some txs := by
  induction m with
  | nil => simp [monSet, monLookup]
  | cons e rest ih =>
    obtain ⟨k, s⟩ := e
    by_cases h : k = c <;> simp [monSet, monLookup, h, ih]

theorem prefix_head_ne {x y : Char} {p q : List Char} {t : List Char} (hxy : x ≠ y)
    (h : (x :: p).isPrefixOf t = true) : (y :: q).isPrefixOf t = false := by
  cases t with
  | nil => simp [List.isPrefixOf] at h
  | cons b t' =>
    have hx : x = b := by
      simp only [List.isPrefixOf, Bool.and_eq_true, beq_iff_eq] at h
      exact h.1
    subst hx
    simp [List.isPrefixOf, beq_eq_false_iff_ne.mpr (Ne.symm hxy)]

/-- An address starting with `L`, `M` or `ltc1` starts with none of the
BTC prefixes (the first characters differ). -/
theorem ltc_prefix_not_btc {a : String}
    (h : pyStartsWith a "L" = true ∨ pyStartsWith a "M" = true ∨ pyStartsWith a "ltc1" = true) :
    pyStartsWith a "1" = false ∧ pyStartsWith a "3" = false ∧ pyStartsWith a "bc1" = false := by
  unfold pyStartsWith at *
  rcases h with h | h | h <;>
    exact ⟨prefix_head_ne (by decide) h, prefix_head_ne (by decide) h,
      prefix_head_ne (by decide) h⟩

/-! ### C4 -/

/-- C4: the address classifier is a deterministic pure function: every
address beginning with `1`, `3` or `bc1` classifies as BTC; every address
beginning with `L`, `M` or `ltc1` classifies as LTC; any other address
fails with the invalid-address error. -/
theorem C4_address_classifier (a : String) :
    (pyStartsWith a "1" = true ∨ pyStartsWith a "3" = true ∨ pyStartsWith a "bc1" = true →
      detect_crypto_type a = .ok .btc) ∧
    (pyStartsWith a "L" = true ∨ pyStartsWith a "M" = true ∨ pyStartsWith a "ltc1" = true →
      detect_crypto_type a = .ok .ltc) ∧
    (¬(pyStartsWith a "1" = true ∨ pyStartsWith a "3" = true ∨ pyStartsWith a "bc1" = true) →
      ¬(pyStartsWith a "L" = true ∨ pyStartsWith a "M" = true ∨ pyStartsWith a "ltc1" = true) →
      detect_crypto_type a = .error "Invalid cryptocurrency address") := by
  refine ⟨fun h => ?_, fun h => ?_, fun h1 h2 => ?_⟩
  · rcases h with h | h | h <;> simp [detect_crypto_type, h]
  · obtain ⟨h1, h3, hbc⟩ := ltc_prefix_not_btc h
    rcases h with h | h | h <;> simp [detect_crypto_type, h1, h3, hbc, h]
  · simp only [not_or, Bool.not_eq_true] at h1 h2
    simp [detect_crypto_type, h1.1, h1.2.1, h1.2.2, h2.1, h2.2.1, h2.2.2]

/-- C4 witness: the classifier evaluated on the three spec examples. -/
theorem C4_witness :
    detect_crypto_type "1A1zP1" = .ok .btc ∧
    detect_crypto_type "LQ3" = .ok .ltc ∧
    detect_crypto_type "xyz" = .error "Invalid cryptocurrency address" :=
  ⟨(C4_address_classifier "1A1zP1").1 (.inl (by decide)),
   (C4_address_classifier "LQ3").2.1 (.inl (by decide)),
   (C4_address_classifier "xyz").2.2 (by decide) (by decide)⟩
theorem releaseBody_released_inv {feePct : ℚ} {gw : Except Unit String} {store : Store}
    {chat_id : ChatId} {user_id : Int} {t : Transaction} {buyer seller : Party}
    {p f : ℚ} {addr pid : String} {s' : Store}
    (h : releaseBody feePct gw store chat_id user_id t buyer seller = (.released p f addr pid, s')) :
    t.payment_status = some "confirmed" ∧
    ∃ amt, t.amount = some amt ∧ gw = .ok pid ∧ s' = storeErase chat_id store ∧
      p = release_amount amt feePct ∧ f = escrow_fee amt feePct := by
  unfold releaseBody at h
  split at h
  · simp at h
  next hstatus =>
    split at h
    · simp at h
    next amt hamt =>
      split at h
      all_goals
        (cases gw with
        | error e => simp at h
        | ok pid2 =>
          simp only [Prod.mk.injEq, ReleaseResult.released.injEq] at h
          obtain ⟨⟨hp, hf, haddr, hpid⟩, hs⟩ := h
          exact ⟨not_not.mp hstatus, amt, hamt, by rw [hpid], hs.symm, hp.symm, hf.symm⟩)

theorem release_released_inv {feePct : ℚ} {gw : Except Unit String} {store : Store}
    {chat_id : ChatId} {user_id : Int} {p f : ℚ} {addr pid : String} {s' : Store}
    (h : release feePct gw store chat_id user_id = (.released p f addr pid, s')) :
    ∃ t buyer seller amt,
      storeLookup chat_id store = some t ∧ t.buyer = some buyer ∧ t.seller = some seller ∧
      buyer.user_id.isSome = true ∧ t.payment_status = some "confirmed" ∧
      t.amount = some amt ∧ gw = .ok pid ∧ s' = storeErase chat_id store ∧
      p = release_amount amt feePct ∧ f = escrow_fee amt feePct := by
  unfold release at h
  split at h
  · simp at h
  next t heq =>
    split at h
    · simp at h
    · simp at h
    next buyer seller hbuy hsell =>
      split at h
      · simp at h
      next buid hbuid =>
        split at h
        · obtain ⟨hst, amt, hamt, hgw, hs, hp, hf⟩ := releaseBody_released_inv h
          exact ⟨t, buyer, seller, amt, heq, hbuy, hsell, by simp [hbuid], hst, hamt, hgw, hs, hp, hf⟩
        · split at h
          · simp at h
          next suid hsuid =>
            split at h
            · obtain ⟨hst, amt, hamt, hgw, hs, hp, hf⟩ := releaseBody_released_inv h
              exact ⟨t, buyer, seller, amt, heq, hbuy, hsell, by simp [hbuid], hst, hamt, hgw, hs, hp, hf⟩
            · simp at h

theorem release_unchanged_or_released {feePct : ℚ} {gw : Except Unit String} {store : Store}
    {chat_id : ChatId} {user_id : Int} :
    (release feePct gw store chat_id user_id).2 = store ∨
    ∃ p f addr pid, (release feePct gw store chat_id user_id).1 = .released p f addr pid := by
  unfold release releaseBody
  repeat' split
  all_goals first
    | left; rfl
    | right; exact ⟨_, _, _, _, rfl⟩

theorem refund_refunded_inv {admin : Bool} {gw : Except Unit String} {store : Store}
    {chat_id : ChatId} {args : List String} {rid : String} {s' : Store}
    (h : refund admin gw store chat_id args = (.refunded rid, s')) :
    admin = true ∧ args ≠ [] ∧
    ∃ t, storeLookup chat_id store = some t ∧ t.payment_id.isSome = true ∧
      t.amount.isSome = true ∧ gw = .ok rid ∧ s' = storeErase chat_id store := by
  unfold refund at h
  split at h
  · simp at h
  next hadmin =>
    split at h
    · simp at h
    next tx rest =>
      split at h
      · simp at h
      next t heq =>
        split at h
        · simp at h
        next pid hpid =>
          split at h
          · simp at h
          next rid2 =>
            split at h
            · simp at h
            next amt hamt =>
              simp only [Prod.mk.injEq, RefundResult.refunded.injEq] at h
              obtain ⟨hr, hs⟩ := h
              exact ⟨not_not.mp (by simpa using hadmin), by simp, t, heq,
                by simp [hpid], by simp [hamt], by rw [hr], hs.symm⟩

theorem refund_unchanged_or_refunded {admin : Bool} {gw : Except Unit String} {store : Store}
    {chat_id : ChatId} {args : List String} :
    (refund admin gw store chat_id args).2 = store ∨
    ∃ rid, (refund admin gw store chat_id args).1 = .refunded rid := by
  unfold refund
  repeat' split
  all_goals first
    | left; rfl
    | right; exact ⟨_, rfl⟩

/-! ### C1 -/

/-- C1 (corrected): a `release` succeeds only when the session exists, both
buyer and seller are present and the payment status is confirmed, and a
release that does not succeed never mutates the store; `refund`, however,
is gated only on admin rights, a supplied argument and the session carrying
a `payment_id` (plus an `amount` read by the notification message): given
those, it succeeds and removes the session regardless of party presence or
payment status; a refund that does not succeed never mutates the store. -/
theorem C1_preconditions (feePct : ℚ) (gw : Except Unit String) (store : Store)
    (chat_id : ChatId) (user_id : Int) (args : List String) (admin : Bool) :
    (∀ p f addr pid s', release feePct gw store chat_id user_id = (.released p f addr pid, s') →
      ∃ t, storeLookup chat_id store = some t ∧ t.buyer.isSome = true ∧
        t.seller.isSome = true ∧ t.payment_status = some "confirmed") ∧
    ((release feePct gw store chat_id user_id).2 = store ∨
      ∃ p f addr pid, (release feePct gw store chat_id user_id).1 = .released p f addr pid) ∧
    (∀ t rid, storeLookup chat_id store = some t → t.payment_id.isSome = true →
      t.amount.isSome = true → admin = true → gw = .ok rid → args ≠ [] →
      refund admin gw store chat_id args = (.refunded rid, storeErase chat_id store)) ∧
    ((refund admin gw store chat_id args).2 = store ∨
      ∃ rid, (refund admin gw store chat_id args).1 = .refunded rid) := by
  refine ⟨fun p f addr pid s' h => ?_, release_unchanged_or_released,
    fun t rid ht hpid hamt hadmin hgw hargs => ?_, refund_unchanged_or_refunded⟩
  · obtain ⟨t, buyer, seller, amt, heq, hbuy, hsell, _, hst, _⟩ := release_released_inv h
    exact ⟨t, heq, by simp [hbuy], by simp [hsell], hst⟩
  · obtain ⟨tx, rest, rfl⟩ : ∃ x xs, args = x :: xs := by
      cases args with
      | nil => exact absurd rfl hargs
      | cons x xs => exact ⟨x, xs, rfl⟩
    obtain ⟨pid, hp⟩ := Option.isSome_iff_exists.mp hpid
    obtain ⟨amt, ha⟩ := Option.isSome_iff_exists.mp hamt
    subst hadmin hgw
    simp [refund, ht, hp, ha]

/-- C1 counterexample: a refund succeeds and removes the session on a
session that has no buyer, no seller, and whose payment is not confirmed —
where the claim requires a precondition failure without mutation. -/
theorem C1_counterexample :
    (({ payment_id := some "p1", amount := some (mkRat 50 1) } : Transaction).buyer = none) ∧
    (({ payment_id := some "p1", amount := some (mkRat 50 1) } : Transaction).seller = none) ∧
    (({ payment_id := some "p1", amount := some (mkRat 50 1) } : Transaction).payment_status ≠
      some "confirmed") ∧
    refund true (.ok "r1")
      [(3, { payment_id := some "p1", amount := some (mkRat 50 1) })] 3 ["tx"] =
      (.refunded "r1", []) := by
  refine ⟨rfl, rfl, by decide, by decide⟩

/-- C1 witness: a confirmed two-party session satisfies the release
necessary conditions; a session with only a payment id is refunded. -/
theorem C1_witness :
    (∃ t, storeLookup 4
        [(4, { buyer := some ⟨"1B", .btc, 0, some 1⟩, seller := some ⟨"LS", .ltc, 0, some 2⟩,
               payment_status := some "confirmed", amount := some (mkRat 100 1) })] = some t ∧
      t.buyer.isSome = true ∧ t.seller.isSome = true ∧ t.payment_status = some "confirmed") ∧
    refund true (.ok "r2") [(6, { payment_id := some "p2", amount := some (mkRat 10 1) })] 6 ["t"] =
      (.refunded "r2",
        storeErase 6 [(6, { payment_id := some "p2", amount := some (mkRat 10 1) })]) :=
  ⟨(C1_preconditions (mkRat 5 1) (.ok "p")
      [(4, { buyer := some ⟨"1B", .btc, 0, some 1⟩, seller := some ⟨"LS", .ltc, 0, some 2⟩,
             payment_status := some "confirmed", amount := some (mkRat 100 1) })] 4 1 ["t"] true).1
      (mkRat 95 1) (mkRat 5 1) "LS" "p" [] (by decide),
   (C1_preconditions (mkRat 5 1) (.ok "r2")
      [(6, { payment_id := some "p2", amount := some (mkRat 10 1) })] 6 0 ["t"] true).2.2.1
      { payment_id := some "p2", amount := some (mkRat 10 1) } "r2" rfl rfl rfl rfl rfl
      (by decide)⟩

/-! ### C2 -/

/-- C2: release and refund are each effective at most once per session:
after a successful release (or refund) the session is absent from the
store and a repeated call returns the not-found reply; and when the
gateway call fails the store — hence the session with its confirmed
payment status — is left unchanged (nothing is mutated until the gateway
call succeeds, so the fee cannot be deducted twice). -/
theorem C2_at_most_once (feePct feePct2 : ℚ) (gw gw2 : Except Unit String) (store : Store)
    (chat_id : ChatId) (user_id user_id2 : Int) (args args2 : List String)
    (admin : Bool) (tx : String) :
    (∀ p f addr pid s', release feePct gw store chat_id user_id = (.released p f addr pid, s') →
      storeLookup chat_id s' = none ∧
      release feePct2 gw2 s' chat_id user_id2 = (.notFound, s')) ∧
    ((release feePct (.error ()) store chat_id user_id).2 = store) ∧
    (∀ rid s', refund admin gw store chat_id args = (.refunded rid, s') →
      storeLookup chat_id s' = none ∧
      refund true gw2 s' chat_id (tx :: args2) = (.notFound, s')) ∧
    ((refund admin (.error ()) store chat_id args).2 = store) := by
  refine ⟨fun p f addr pid s' h => ?_, ?_, fun rid s' h => ?_, ?_⟩
  · obtain ⟨t, buyer, seller, amt, heq, hbuy, hsell, _, hst, hamt, hgw, hs, _⟩ :=
      release_released_inv h
    subst hs
    exact ⟨storeLookup_erase _ _, by simp [release, storeLookup_erase]⟩
  · rcases @release_unchanged_or_released feePct (.error ()) store chat_id user_id
      with h | ⟨p, f, addr, pid, h⟩
    · exact h
    · exfalso
      have h' : release feePct (.error ()) store chat_id user_id =
          (.released p f addr pid, (release feePct (.error ()) store chat_id user_id).2) := by
        rw [← h]
      obtain ⟨_, _, _, _, _, _, _, _, _, _, hgw, _⟩ := release_released_inv h'
      exact absurd hgw (by simp)
  · obtain ⟨hadmin, hargs, t, heq, hpid, hamt, hgw, hs⟩ := refund_refunded_inv h
    subst hs
    exact ⟨storeLookup_erase _ _, by simp [refund, storeLookup_erase]⟩
  · rcases @refund_unchanged_or_refunded admin (.error ()) store chat_id args
      with h | ⟨rid, h⟩
    · exact h
    · exfalso
      have h' : refund admin (.error ()) store chat_id args =
          (.refunded rid, (refund admin (.error ()) store chat_id args).2) := by
        rw [← h]
      obtain ⟨_, _, _, _, _, _, hgw, _⟩ := refund_refunded_inv h'
      exact absurd hgw (by simp)

/-- C2 witness: a concrete successful release and a concrete successful
refund each empty the store, and the repeated calls observe not-found. -/
theorem C2_witness :
    (storeLookup 4 ([] : Store) = none ∧
     release (mkRat 5 1) (.ok "q") ([] : Store) 4 2 = (.notFound, [])) ∧
    (storeLookup 6 ([] : Store) = none ∧
     refund true (.ok "q") ([] : Store) 6 ["t2"] = (.notFound, [])) :=
  ⟨(C2_at_most_once (mkRat 5 1) (mkRat 5 1) (.ok "p") (.ok "q")
      [(4, { buyer := some ⟨"1B", .btc, 0, some 1⟩, seller := some ⟨"LS", .ltc, 0, some 2⟩,
             payment_status := some "confirmed", amount := some (mkRat 100 1) })]
      4 1 2 ["t"] [] true "t2").1
      (mkRat 95 1) (mkRat 5 1) "LS" "p" [] (by decide),
   (C2_at_most_once (mkRat 5 1) (mkRat 5 1) (.ok "r2") (.ok "q")
      [(6, { payment_id := some "p2", amount := some (mkRat 10 1) })]
      6 0 0 ["t"] [] true "t2").2.2.1 "r2" [] (by decide)⟩

/-! ### C3 -/

/-- C3 (amended): the fee and the payout are computed in IEEE-754 binary64
(Python float) arithmetic, not decimal: fee = fl(a · fl(p/100)),
payout = fl(a − fee). For amount 100.00 and fee percent 5 this still gives
exactly fee = 5.00 and payout = 95.00; for amount 33.33 the fee is the
binary64 value 1876312194753233/2^50 = 1.66650000000000009…, not 1.6665. -/
theorem C3_fee_float :
    escrow_fee (mkRat 100 1) (mkRat 5 1) = mkRat 5 1 ∧
    release_amount (mkRat 100 1) (mkRat 5 1) = mkRat 95 1 ∧
    escrow_fee (roundF64 (mkRat 3333 100)) (mkRat 5 1) =
      mkRat 1876312194753233 1125899906842624 := by decide

/-- C3 counterexample: for amount 33.33 (stored as the binary64 value
nearest 33.33) and fee percent 5, the computed fee differs from the exact
decimal value a·p/100 = 1.6665 and the payout differs from
33.33 − 1.6665 = 31.6635: the arithmetic is binary floating point and
nothing rounds the results to the currency's minor unit. -/
theorem C3_counterexample :
    escrow_fee (roundF64 (mkRat 3333 100)) (mkRat 5 1) ≠ mkRat 3333 2000 ∧
    release_amount (roundF64 (mkRat 3333 100)) (mkRat 5 1) ≠ mkRat 316635 10000 := by decide

/-! ### C5 -/

/-- One monitor iteration: a stop keeps the retry counter within one
increment; a continue either resets it (successful poll), keeps it
(falsy lookup result), or increments it below the maximum. -/
theorem monitorStep_retry (chat_id : ChatId) (store : Store) (st : MonState) (p : PollOutcome) :
    (∃ store' st' evs, monitorStep chat_id store st p = .stop store' st' evs ∧
      st'.retry_count ≤ st.retry_count + 1) ∨
    (∃ store' st' evs slp, monitorStep chat_id store st p = .next store' st' evs slp ∧
      (st'.retry_count = 0 ∨ st'.retry_count = st.retry_count ∨
        (st'.retry_count = st.retry_count + 1 ∧ st.retry_count + 1 < 3))) := by
  cases p with
  | found confs total =>
    simp only [monitorStep]
    repeat' split
    all_goals first
      | exact .inl ⟨_, _, _, rfl, Nat.le_succ _⟩
      | exact .inr ⟨_, _, _, _, rfl, .inl rfl⟩
  | noInfo => exact .inr ⟨_, _, _, _, rfl, .inr (.inl rfl)⟩
  | failure =>
    simp only [monitorStep, max_retries]
    split
    · exact .inl ⟨_, _, _, rfl, Nat.le_refl _⟩
    next hlt => exact .inr ⟨_, _, _, _, rfl, .inr (.inr ⟨rfl, Nat.lt_of_not_le hlt⟩)⟩

/-- One monitor iteration emits at most one admin-failure notification,
and none at all if the loop continues. -/
theorem monitorStep_admin (chat_id : ChatId) (store : Store) (st : MonState) (p : PollOutcome) :
    (∃ store' st' evs, monitorStep chat_id store st p = .stop store' st' evs ∧
      countAdmin evs ≤ 1) ∨
    (∃ store' st' evs slp, monitorStep chat_id store st p = .next store' st' evs slp ∧
      countAdmin evs = 0) := by
  cases p with
  | found confs total =>
    simp only [monitorStep]
    repeat' split
    all_goals first
      | exact .inl ⟨_, _, _, rfl, by simp [countAdmin, List.countP_cons, List.countP_nil]⟩
      | exact .inr ⟨_, _, _, _, rfl, by simp [countAdmin, List.countP_cons, List.countP_nil]⟩
  | noInfo => exact .inr ⟨_, _, _, _, rfl, by simp [countAdmin, List.countP_nil]⟩
  | failure =>
    simp only [monitorStep, max_retries]
    split
    · exact .inl ⟨_, _, _, rfl, by simp [countAdmin, List.countP_cons, List.countP_nil]⟩
    · exact .inr ⟨_, _, _, _, rfl, by simp [countAdmin, List.countP_nil]⟩

/-- Along any run from a state within the retry budget, every reached
state keeps the retry counter at most 3. -/
theorem monitorRun_retry_bound (chat_id : ChatId) :
    ∀ (polls : List PollOutcome) (store : Store) (st : MonState),
      st.retry_count ≤ 2 →
      ∀ s ∈ (monitorRun chat_id store st polls).states, s.retry_count ≤ 3
  | [], store, st, hst => by simp [monitorRun]
  | p :: ps, store, st, hst => by
    intro s hs
    rcases monitorStep_retry chat_id store st p with ⟨store', st', evs, he, hb⟩ |
      ⟨store', st', evs, slp, he, hb⟩
    · simp only [monitorRun, he] at hs
      simp at hs
      subst hs
      omega
    · simp only [monitorRun, he] at hs
      simp at hs
      rcases hs with rfl | hs
      · rcases hb with h0 | h1 | h2 <;> omega
      · refine monitorRun_retry_bound chat_id ps store' st' ?_ s hs
        rcases hb with h0 | h1 | h2 <;> omega

/-- A whole monitor run emits at most one admin-failure notification. -/
theorem monitorRun_admin_le_one (chat_id : ChatId) :
    ∀ (polls : List PollOutcome) (store : Store) (st : MonState),
      countAdmin (monitorRun chat_id store st polls).events ≤ 1
  | [], _, _ => by simp [monitorRun, countAdmin, List.countP_nil]
  | p :: ps, store, st => by
    rcases monitorStep_admin chat_id store st p with ⟨store', st', evs, he, hc⟩ |
      ⟨store', st', evs, slp, he, hc⟩
    · simp only [monitorRun, he]
      exact hc
    · simp only [monitorRun, he]
      have hr := monitorRun_admin_le_one chat_id ps store' st'
      simp only [countAdmin, List.countP_append] at hc hr ⊢
      omega

/-- C5: from the initial monitor state the retry counter never exceeds 3
and at most one admin-failure notification is emitted; a successful poll
resets the counter; the k-th consecutive failure (k < 3) sleeps
baseInterval × k before the next attempt; the 3rd consecutive failure
stops the watcher with the admin notification; and three consecutive
failures from the start terminate the monitor with exactly one
admin-failure event, sleeps 60 and 120, and the store unchanged. -/
theorem C5_retry_backoff (chat_id : ChatId) (store : Store) (st : MonState)
    (polls : List PollOutcome) (confs total : Nat) :
    (∀ s ∈ (monitorRun chat_id store monitorInit polls).states, s.retry_count ≤ 3) ∧
    (countAdmin (monitorRun chat_id store monitorInit polls).events ≤ 1) ∧
    (∀ store' st' evs slp,
      monitorStep chat_id store st (.found confs total) = .next store' st' evs slp →
      st'.retry_count = 0) ∧
    (st.retry_count + 1 < 3 →
      monitorStep chat_id store st .failure =
        .next store ⟨st.last_status, st.retry_count + 1⟩ []
          (MONITORING_INTERVAL * (st.retry_count + 1))) ∧
    (3 ≤ st.retry_count + 1 →
      monitorStep chat_id store st .failure =
        .stop store ⟨st.last_status, st.retry_count + 1⟩ [.adminFailure]) ∧
    (monitorRun chat_id store monitorInit (.failure :: .failure :: .failure :: polls) =
      ⟨store, [.adminFailure], [60, 120], [⟨none, 1⟩, ⟨none, 2⟩, ⟨none, 3⟩], true⟩) := by
  refine ⟨monitorRun_retry_bound chat_id polls store monitorInit (by simp [monitorInit]),
    monitorRun_admin_le_one chat_id polls store monitorInit,
    fun store' st' evs slp h => ?_, fun h => ?_, fun h => ?_, ?_⟩
  · simp only [monitorStep] at h
    repeat' split at h
    all_goals first
      | (simp only [StepOut.next.injEq] at h; rw [← h.2.1])
      | exact absurd h (by simp)
  · simp only [monitorStep, max_retries]
    rw [if_neg (Nat.not_le.mpr h)]
  · simp only [monitorStep, max_retries]
    rw [if_pos h]
  · simp [monitorRun, monitorStep, monitorInit, max_retries, MONITORING_INTERVAL]

/-- C5 witness: the backoff and termination facts evaluated at concrete
states and poll sequences. -/
theorem C5_witness :
    (∀ s ∈ (monitorRun 1 [] monitorInit [.failure, .found 0 7, .failure]).states,
      s.retry_count ≤ 3) ∧
    (∀ store' st' evs slp,
      monitorStep 1 [] ⟨some .pending, 2⟩ (.found 0 7) = .next store' st' evs slp →
      st'.retry_count = 0) ∧
    monitorStep 1 [] ⟨none, 0⟩ .failure = .next [] ⟨none, 0 + 1⟩ [] (MONITORING_INTERVAL * (0 + 1)) ∧
    monitorStep 1 [] ⟨none, 2⟩ .failure = .stop [] ⟨none, 2 + 1⟩ [.adminFailure] ∧
    monitorRun 1 [] monitorInit [.failure, .failure, .failure] =
      ⟨[], [.adminFailure], [60, 120], [⟨none, 1⟩, ⟨none, 2⟩, ⟨none, 3⟩], true⟩ :=
  ⟨(C5_retry_backoff 1 [] monitorInit [.failure, .found 0 7, .failure] 0 7).1,
   (C5_retry_backoff 1 [] ⟨some .pending, 2⟩ [] 0 7).2.2.1,
   (C5_retry_backoff 1 [] ⟨none, 0⟩ [] 0 7).2.2.2.1 (by decide),
   (C5_retry_backoff 1 [] ⟨none, 2⟩ [] 0 7).2.2.2.2.1 (by decide),
   (C5_retry_backoff 1 [] monitorInit [] 0 7).2.2.2.2.2⟩

/-! ### C6 -/

/-- C6 (amended): on a status change to Confirmed observed while the
session is still in the store, the monitor sets the session payment status
to confirmed, emits the status-change and ready-to-release notifications,
and stops polling. The monitor never checks for session disappearance: if
the session is absent when the change to Confirmed is observed, the
iteration continues polling (only the retry-failure path can then end the
watcher). -/
theorem C6_confirm_terminal (chat_id : ChatId) (store : Store) (st : MonState)
    (confs total : Nat) :
    (0 < confs → st.last_status ≠ some .confirmed → (storeLookup chat_id store).isSome = true →
      monitorStep chat_id store st (.found confs total) =
        .stop (storeModify chat_id (fun t => { t with payment_status := some "confirmed" }) store)
          st [.statusMsg .confirmed confs, .readyMsg]) ∧
    (storeLookup chat_id store = none →
      ∃ st' evs, monitorStep chat_id store st (.found confs total) =
        .next store st' evs MONITORING_INTERVAL) := by
  constructor
  · intro hconfs hlast hsome
    have hcur : (if confs > 0 then MonStatus.confirmed else MonStatus.pending) = .confirmed :=
      if_pos hconfs
    simp [monitorStep, hcur, Ne.symm hlast, hsome]
  · intro hnone
    by_cases hch : some (if confs > 0 then MonStatus.confirmed else MonStatus.pending) ≠
        st.last_status
    · refine ⟨⟨some (if confs > 0 then .confirmed else .pending), 0⟩,
        [.statusMsg (if confs > 0 then .confirmed else .pending) confs], ?_⟩
      simp only [monitorStep]
      rw [if_pos hch, if_neg (fun hand => by rw [hnone] at hand; simp at hand)]
    · refine ⟨⟨some (if confs > 0 then .confirmed else .pending), 0⟩, [], ?_⟩
      simp only [monitorStep]
      rw [if_neg hch]

/-- C6 counterexample: with its session absent from the store, a monitor
that observes five confirmed polls emits the status-change message once,
never terminates (the run is still live after all five polls), and the
retry path is never entered — contradicting the claim that the monitor
checks each poll cycle whether its session disappeared and terminates. -/
theorem C6_counterexample :
    monitorRun 1 [] monitorInit (List.replicate 5 (.found 2 100)) =
      ⟨[], [.statusMsg .confirmed 2], [60, 60, 60, 60, 60],
        [⟨some .confirmed, 0⟩, ⟨some .confirmed, 0⟩, ⟨some .confirmed, 0⟩,
         ⟨some .confirmed, 0⟩, ⟨some .confirmed, 0⟩], false⟩ ∧
    storeLookup 1 ([] : Store) = none := by
  exact ⟨by decide, rfl⟩

/-- C6 witness: a concrete confirmed poll with the session present stops
the watcher and marks the session confirmed; the same poll with an empty
store continues polling. -/
theorem C6_witness :
    monitorStep 1 [(1, {})] monitorInit (.found 1 50) =
      .stop [(1, { payment_status := some "confirmed" })] monitorInit
        [.statusMsg .confirmed 1, .readyMsg] ∧
    (∃ st' evs, monitorStep 1 [] monitorInit (.found 1 50) =
      .next [] st' evs MONITORING_INTERVAL) :=
  ⟨(C6_confirm_terminal 1 [(1, {})] monitorInit 1 50).1 (by decide) (by decide) rfl,
   (C6_confirm_terminal 1 [] monitorInit 1 50).2 rfl⟩

/-! ### C7 -/

/-- C7: watcher registration is idempotent per (chat, transaction) pair:
after a first `start_monitoring` call the pair is registered, a second
call for the same pair changes nothing and spawns no thread, and a call
for an unregistered pair spawns exactly one watcher thread. -/
theorem C7_watcher_dedup (m : Monitored) (chat_id : ChatId) (tx_id : String) :
    (start_monitoring (start_monitoring m chat_id tx_id).1 chat_id tx_id =
      ((start_monitoring m chat_id tx_id).1, false)) ∧
    (tx_id ∈ (monLookup chat_id (start_monitoring m chat_id tx_id).1).getD []) ∧
    (tx_id ∉ (monLookup chat_id m).getD [] → (start_monitoring m chat_id tx_id).2 = true) := by
  refine ⟨?_, ?_, ?_⟩
  · cases hl : monLookup chat_id m with
    | none => simp [start_monitoring, hl, monLookup_set]
    | some txs =>
      by_cases ht : tx_id ∈ txs
      · simp [start_monitoring, hl, ht, monLookup_set]
      · simp [start_monitoring, hl, ht, monLookup_set]
  · cases hl : monLookup chat_id m with
    | none => simp [start_monitoring, hl, monLookup_set]
    | some txs =>
      by_cases ht : tx_id ∈ txs
      · simp [start_monitoring, hl, ht, monLookup_set]
      · simp [start_monitoring, hl, ht, monLookup_set]
  · intro hnm
    cases hl : monLookup chat_id m with
    | none => simp [start_monitoring, hl, monLookup_set]
    | some txs =>
      rw [hl] at hnm
      simp only [Option.getD_some] at hnm
      simp [start_monitoring, hl, hnm, monLookup_set]

/-- C7 witness: starting two monitors for the same pair from an empty
registry spawns exactly one watcher. -/
theorem C7_witness :
    (start_monitoring (start_monitoring [] 1 "tx9").1 1 "tx9" =
      ((start_monitoring [] 1 "tx9").1, false)) ∧
    "tx9" ∈ (monLookup 1 (start_monitoring [] 1 "tx9").1).getD [] ∧
    (start_monitoring [] 1 "tx9").2 = true :=
  ⟨(C7_watcher_dedup [] 1 "tx9").1, (C7_watcher_dedup [] 1 "tx9").2.1,
   (C7_watcher_dedup [] 1 "tx9").2.2 (by decide)⟩

/-! ### C8, C9, C10 -/

/-- The `/buyer` handler, when its guards pass, unconditionally overwrites
the buyer record with the new address and writes no `user_id` key. -/
theorem set_buyer_spec (blocked : List Int) (store : Store) (chat_id : ChatId)
    (user_id now : Int) (address : String) (rest : List String) (coin : CoinType)
    (hb : user_id ∉ blocked) (hd : detect_crypto_type address = .ok coin) :
    set_buyer blocked true (.ok true) now store chat_id user_id (address :: rest) =
      (.roleSet coin address,
        storeSet chat_id
          { (storeLookup chat_id store).getD {} with
              buyer := some ⟨address, coin, now, none⟩ } store) := by
  simp [set_buyer, hb, hd]

/-- The `/seller` handler, when its guards pass, unconditionally overwrites
the seller record with the new address and writes no `user_id` key. -/
theorem set_seller_spec (blocked : List Int) (store : Store) (chat_id : ChatId)
    (user_id now : Int) (address : String) (rest : List String) (coin : CoinType)
    (hb : user_id ∉ blocked) (hd : detect_crypto_type address = .ok coin) :
    set_seller blocked true (.ok true) now store chat_id user_id (address :: rest) =
      (.roleSet coin address,
        storeSet chat_id
          { (storeLookup chat_id store).getD {} with
              seller := some ⟨address, coin, now, none⟩ } store) := by
  simp [set_seller, hb, hd]

/-- C8: evaluation at the failing input: a session created by the `/buyer`
handler at time 0 carries no top-level `timestamp` key, so at time 200000
(55.5 hours later, far beyond the 24-hour timeout) the reaper leaves it in
the store and sends no expiry notification; an entry that does carry the
top-level key is removed with exactly one notification — the expiry check
reads a key no code path ever writes. -/
theorem C8_reaper_failing_input :
    (set_buyer [] true (.ok true) 0 [] 7 1 ["1A1zP1"]).2 =
      [(7, { buyer := some ⟨"1A1zP1", .btc, 0, none⟩ })] ∧
    cleanup_old_transactions 200000 [(7, { buyer := some ⟨"1A1zP1", .btc, 0, none⟩ })] =
      ([(7, { buyer := some ⟨"1A1zP1", .btc, 0, none⟩ })], []) ∧
    cleanup_old_transactions 200000 [(8, { timestamp := some 0 })] = ([], [8]) := by
  exact ⟨by decide, by decide, by decide⟩

/-- C9 (amended): the role-set handlers perform no
already-set-by-a-different-party check: a non-blocked caller with a valid
address unconditionally overwrites the existing role record, whoever set
it; re-set by the same party is the same overwrite. -/
theorem C9_role_overwrite (blocked : List Int) (store : Store) (chat_id : ChatId)
    (user_id now : Int) (address : String) (rest : List String) (coin : CoinType)
    (hb : user_id ∉ blocked) (hd : detect_crypto_type address = .ok coin) :
    set_buyer blocked true (.ok true) now store chat_id user_id (address :: rest) =
      (.roleSet coin address,
        storeSet chat_id
          { (storeLookup chat_id store).getD {} with
              buyer := some ⟨address, coin, now, none⟩ } store) ∧
    set_seller blocked true (.ok true) now store chat_id user_id (address :: rest) =
      (.roleSet coin address,
        storeSet chat_id
          { (storeLookup chat_id store).getD {} with
              seller := some ⟨address, coin, now, none⟩ } store) :=
  ⟨set_buyer_spec blocked store chat_id user_id now address rest coin hb hd,
   set_seller_spec blocked store chat_id user_id now address rest coin hb hd⟩

/-- C9 counterexample: user 1 sets the buyer role with address 1AAA; a
set by the different user 2 is not rejected and replaces the record,
where the claim requires rejection with the session left unchanged. -/
theorem C9_counterexample :
    (set_buyer [] true (.ok true) 10 [] 5 1 ["1AAA"]).2 =
      [(5, { buyer := some ⟨"1AAA", .btc, 10, none⟩ })] ∧
    set_buyer [] true (.ok true) 20
      (set_buyer [] true (.ok true) 10 [] 5 1 ["1AAA"]).2 5 2 ["1BBB"] =
      (.roleSet .btc "1BBB", [(5, { buyer := some ⟨"1BBB", .btc, 20, none⟩ })]) := by
  exact ⟨by decide, by decide⟩

/-- C9 witness: the overwrite equations evaluated at a store whose buyer
role is already set. -/
theorem C9_witness :
    set_buyer [] true (.ok true) 20 [(5, { buyer := some ⟨"1AAA", .btc, 10, none⟩ })] 5 2
        ["1BBB"] =
      (.roleSet .btc "1BBB",
        storeSet 5
          { (storeLookup 5 [(5, { buyer := some ⟨"1AAA", .btc, 10, none⟩ })]).getD {} with
              buyer := some ⟨"1BBB", .btc, 20, none⟩ }
          [(5, { buyer := some ⟨"1AAA", .btc, 10, none⟩ })]) ∧
    set_seller [] true (.ok true) 20 [(5, { buyer := some ⟨"1AAA", .btc, 10, none⟩ })] 5 2
        ["1BBB"] =
      (.roleSet .btc "1BBB",
        storeSet 5
          { (storeLookup 5 [(5, { buyer := some ⟨"1AAA", .btc, 10, none⟩ })]).getD {} with
              seller := some ⟨"1BBB", .btc, 20, none⟩ }
          [(5, { buyer := some ⟨"1AAA", .btc, 10, none⟩ })]) :=
  C9_role_overwrite [] [(5, { buyer := some ⟨"1AAA", .btc, 10, none⟩ })] 5 2 20 "1BBB" []
    .btc (by decide) rfl

/-- C10: party records written by the role handlers contain exactly the
keys address, coin_type and timestamp — never `user_id` — and on any
session whose roles were set that way (buyer present with no `user_id`,
seller present) every `release` invocation stops at the requester check
with an uncaught KeyError: the gateway call is never reached and the
session is never removed from the store. -/
theorem C10_release_keyerror (store2 : Store) (chat_id2 : ChatId) (requester : Int)
    (feePct : ℚ) (gw : Except Unit String) (t : Transaction) (buyer : Party)
    (ht : storeLookup chat_id2 store2 = some t) (hbuy : t.buyer = some buyer)
    (hsell : t.seller.isSome = true) (huid : buyer.user_id = none) :
    (∀ blocked store chat_id user_id now address rest coin t' b',
      user_id ∉ blocked → detect_crypto_type address = .ok coin →
      storeLookup chat_id (set_buyer blocked true (.ok true) now store chat_id user_id
        (address :: rest)).2 = some t' → t'.buyer = some b' →
      b'.address = address ∧ b'.coin_type = coin ∧ b'.timestamp = now ∧ b'.user_id = none) ∧
    (∀ blocked store chat_id user_id now address rest coin t' s',
      user_id ∉ blocked → detect_crypto_type address = .ok coin →
      storeLookup chat_id (set_seller blocked true (.ok true) now store chat_id user_id
        (address :: rest)).2 = some t' → t'.seller = some s' →
      s'.address = address ∧ s'.coin_type = coin ∧ s'.timestamp = now ∧ s'.user_id = none) ∧
    release feePct gw store2 chat_id2 requester = (.keyError, store2) := by
  refine ⟨?_, ?_, ?_⟩
  · intro blocked store chat_id user_id now address rest coin t' b' hb hd hlook hb2
    rw [set_buyer_spec blocked store chat_id user_id now address rest coin hb hd] at hlook
    rw [show (((SetRoleResult.roleSet coin address),
        storeSet chat_id
          { (storeLookup chat_id store).getD {} with
              buyer := some ⟨address, coin, now, none⟩ } store) :
        SetRoleResult × Store).2 = storeSet chat_id
          { (storeLookup chat_id store).getD {} with
              buyer := some ⟨address, coin, now, none⟩ } store from rfl] at hlook
    rw [storeLookup_set] at hlook
    injection hlook with h3
    subst h3
    simp only [Option.some.injEq] at hb2
    subst hb2
    exact ⟨rfl, rfl, rfl, rfl⟩
  · intro blocked store chat_id user_id now address rest coin t' s' hb hd hlook hs2
    rw [set_seller_spec blocked store chat_id user_id now address rest coin hb hd] at hlook
    rw [show (((SetRoleResult.roleSet coin address),
        storeSet chat_id
          { (storeLookup chat_id store).getD {} with
              seller := some ⟨address, coin, now, none⟩ } store) :
        SetRoleResult × Store).2 = storeSet chat_id
          { (storeLookup chat_id store).getD {} with
              seller := some ⟨address, coin, now, none⟩ } store from rfl] at hlook
    rw [storeLookup_set] at hlook
    injection hlook with h3
    subst h3
    simp only [Option.some.injEq] at hs2
    subst hs2
    exact ⟨rfl, rfl, rfl, rfl⟩
  · obtain ⟨seller, hs⟩ := Option.isSome_iff_exists.mp hsell
    simp [release, ht, hbuy, hs, huid]

/-- C10 witness: a handler-created buyer record has no user id, and a
release on a fully confirmed session whose parties lack user ids raises
the KeyError and leaves the store unchanged. -/
theorem C10_witness :
    storeLookup 5 (set_buyer [] true (.ok true) 0 [] 5 1 ["1CCC"]).2 =
      some { buyer := some (⟨"1CCC", .btc, 0, none⟩ : Party) } ∧
    (⟨"1CCC", CoinType.btc, 0, none⟩ : Party).user_id = none ∧
    release (mkRat 5 1) (.ok "p")
      [(9, { buyer := some ⟨"1X", .btc, 0, none⟩, seller := some ⟨"LY", .ltc, 0, none⟩,
             payment_status := some "confirmed", amount := some (mkRat 100 1) })] 9 1 =
      (.keyError,
        [(9, { buyer := some ⟨"1X", .btc, 0, none⟩, seller := some ⟨"LY", .ltc, 0, none⟩,
               payment_status := some "confirmed", amount := some (mkRat 100 1) })]) :=
  ⟨by decide, rfl,
   (C10_release_keyerror
      [(9, { buyer := some ⟨"1X", .btc, 0, none⟩, seller := some ⟨"LY", .ltc, 0, none⟩,
             payment_status := some "confirmed", amount := some (mkRat 100 1) })] 9 1
      (mkRat 5 1) (.ok "p")
      { buyer := some ⟨"1X", .btc, 0, none⟩, seller := some ⟨"LY", .ltc, 0, none⟩,
        payment_status := some "confirmed", amount := some (mkRat 100 1) }
      ⟨"1X", .btc, 0, none⟩ rfl rfl rfl rfl).2.2⟩
